import Mathlib

/-!
Verification of the native speech-to-text bridge (whisper JNI layer).

Source files embedded here:
- `whisper.h` / `whisper_dummy.c`: the engine interface and its stub
  implementation (`whisper_init_from_file`, `whisper_full_default_params`,
  `whisper_full`, `whisper_full_n_segments`, `whisper_full_get_segment_text`,
  `whisper_free`).
- `whisper_jni.cpp`: the bridge functions
  `Java_com_pccontrol_voice_audio_SpeechToTextService_00024WhisperModel_init`,
  `..._free` and `..._fullTranscribe`, embedded as `WhisperModel_init`,
  `WhisperModel_free` and `WhisperModel_fullTranscribe`.

Modelling choices:
- A context pointer (`struct whisper_context *`) that may be null is a
  `Handle Ctx`: either `null` (the zero `jlong`) or `ptr c` carrying the
  context the pointer refers to.  Casting the pointer to `jlong` and back is
  the identity on this representation.
- Mutation of engine-internal state through the context pointer is modelled
  by state passing: `whisper_full` returns the status code together with the
  updated context state.
- Every call the bridge makes into the engine is recorded in an `EngineCall`
  trace, so that statements such as "returns without invoking the engine" or
  "calls destroy exactly once" are expressible.
- The `const float *` sample buffer is a `List Float`; `whisper_full`
  receives it read-only (its result contains no sample data), mirroring the
  `const` qualifier, and the bridge returns the pinned buffer it releases
  back to the caller (`audioOut`), mirroring `ReleaseFloatArrayElements`
  with mode 0 (copy back and free).
-/

/-- `struct whisper_full_params` as defined in `whisper_dummy.c`:
a decoding-strategy selector and a progress-printing flag. -/
structure whisper_full_params where
  strategy : Int
  print_progress : Bool
deriving Repr, DecidableEq

/-- The engine interface declared in `whisper.h`, over an abstract context
state type `Ctx`.  `full` is state passing: it returns the status code and
the context state after the call (the C function mutates the context through
its pointer).  `full` receives the sample buffer together with the
`n_samples` argument, as in the header. -/
structure Engine (Ctx : Type) where
  init_from_file : String → Option Ctx
  default_params : Int → whisper_full_params
  full : Ctx → whisper_full_params → List Float → Int → Int × Ctx
  n_segments : Ctx → Int
  get_segment_text : Ctx → Int → String

/-- A `jlong` handle as the bridge uses it: either the zero handle or the
bits of a context pointer.  `ptr c` recovers exactly the context `c` it was
derived from, mirroring the round-trip cast in `whisper_jni.cpp`. -/
inductive Handle (Ctx : Type) where
  | null : Handle Ctx
  | ptr : Ctx → Handle Ctx
deriving Repr, DecidableEq

/-- One call from the bridge into the engine, recorded in order.
`fullCall` carries the context state, the parameter struct, the sample
buffer and the `n_samples` argument passed to `whisper_full`;
`destroy` records a call to `whisper_free` on the given context. -/
inductive EngineCall (Ctx : Type) where
  | initFromFile : String → EngineCall Ctx
  | defaultParams : Int → EngineCall Ctx
  | fullCall : Ctx → whisper_full_params → List Float → Int → EngineCall Ctx
  | nSegments : Ctx → EngineCall Ctx
  | segmentText : Ctx → Int → EngineCall Ctx
  | destroy : Ctx → EngineCall Ctx
deriving Repr

/-! The stub engine of `whisper_dummy.c`. -/

/-- `struct whisper_context { int dummy; }` from `whisper_dummy.c`. -/
structure whisper_context where
  dummy : Int
deriving Repr, DecidableEq

/-- `whisper_init_from_file` from `whisper_dummy.c`: mallocs a context and
returns it without reading the path.  `malloc` of this one-int struct is
modelled as always succeeding; the uninitialized `dummy` field (never read
by any code) is modelled as 0. -/
def whisper_init_from_file (path_model : String) : Option whisper_context :=
  some ⟨0⟩

/-- `whisper_full_default_params` from `whisper_dummy.c`: stores the
requested strategy and clears `print_progress`. -/
def whisper_full_default_params (strategy : Int) : whisper_full_params :=
  { strategy := strategy, print_progress := false }

/-- `whisper_full` from `whisper_dummy.c`: ignores its arguments and returns
status 0; the context state is unchanged. -/
def whisper_full (ctx : whisper_context) (params : whisper_full_params)
    (samples : List Float) (n_samples : Int) : Int × whisper_context :=
  (0, ctx)

/-- `whisper_full_n_segments` from `whisper_dummy.c`: always 1. -/
def whisper_full_n_segments (ctx : whisper_context) : Int :=
  1

/-- `whisper_full_get_segment_text` from `whisper_dummy.c`: the fixed
placeholder string, for every index. -/
def whisper_full_get_segment_text (ctx : whisper_context) (i_segment : Int) : String :=
  " [Dummy Transcription] "

/-- The stub engine of `whisper_dummy.c` packaged as an `Engine`. -/
def stubEngine : Engine whisper_context where
  init_from_file := whisper_init_from_file
  default_params := whisper_full_default_params
  full := whisper_full
  n_segments := whisper_full_n_segments
  get_segment_text := whisper_full_get_segment_text

/-! The bridge layer of `whisper_jni.cpp`. -/

/-- `Java_..._00024WhisperModel_init` from `whisper_jni.cpp`: extracts the
model path, calls `whisper_init_from_file`, releases the string, and returns
the context pointer cast to `jlong` (`Handle.ptr ctx`), or the zero handle
(`Handle.null`) when the engine returned null.  The `language` and `threads`
arguments are received and ignored, as in the source.  Also returns the
trace of engine calls made. -/
def WhisperModel_init {Ctx : Type} (E : Engine Ctx) (modelPath : String)
    (language : String) (threads : Int) : Handle Ctx × List (EngineCall Ctx) :=
  match E.init_from_file modelPath with
  | none => (Handle.null, [EngineCall.initFromFile modelPath])
  | some ctx => (Handle.ptr ctx, [EngineCall.initFromFile modelPath])

/-- `Java_..._00024WhisperModel_free` from `whisper_jni.cpp`: casts the
handle back to a context pointer and, when it is non-null, calls
`whisper_free` on it; a null pointer is a no-op.  The returned trace records
the destroy calls made. -/
def WhisperModel_free {Ctx : Type} (h : Handle Ctx) : List (EngineCall Ctx) :=
  match h with
  | Handle.null => []
  | Handle.ptr ctx => [EngineCall.destroy ctx]

/-- Result of one `fullTranscribe` call: the returned string, the sample
array as released back to the caller, the handle's context state after the
call (the pointer bits are unchanged; the state behind them may not be), and
the trace of engine calls made. -/
structure TranscribeResult (Ctx : Type) where
  text : String
  audioOut : List Float
  handleAfter : Handle Ctx
  trace : List (EngineCall Ctx)
deriving Repr

/-- `Java_..._00024WhisperModel_fullTranscribe` from `whisper_jni.cpp`:
if the handle is null, returns the empty string at once (no engine call);
otherwise pins the array, builds `whisper_full_default_params(0)` with
`print_progress` cleared, and runs `whisper_full` over all `len` samples.
On nonzero status it releases the array and returns the empty string; on
status 0 it concatenates `whisper_full_get_segment_text(ctx, i)` for
`i = 0, ..., n_segments - 1` (with `n_segments = whisper_full_n_segments(ctx)`
read once), releases the array, and returns the accumulated string. -/
def WhisperModel_fullTranscribe {Ctx : Type} (E : Engine Ctx) (h : Handle Ctx)
    (audioData : List Float) : TranscribeResult Ctx :=
  match h with
  | Handle.null =>
      { text := "", audioOut := audioData, handleAfter := Handle.null, trace := [] }
  | Handle.ptr ctx =>
      let len : Int := Int.ofNat audioData.length
      let params : whisper_full_params :=
        { E.default_params 0 with print_progress := false }
      let res := E.full ctx params audioData len
      if res.1 ≠ 0 then
        { text := "", audioOut := audioData, handleAfter := Handle.ptr res.2,
          trace := [EngineCall.defaultParams 0,
                    EngineCall.fullCall ctx params audioData len] }
      else
        let n_segments := E.n_segments res.2
        let idxs := List.range n_segments.toNat
        { text := String.join (idxs.map (fun i => E.get_segment_text res.2 (Int.ofNat i))),
          audioOut := audioData, handleAfter := Handle.ptr res.2,
          trace := [EngineCall.defaultParams 0,
                    EngineCall.fullCall ctx params audioData len,
                    EngineCall.nSegments res.2]
                   ++ idxs.map (fun i => EngineCall.segmentText res.2 (Int.ofNat i)) }

/-- An engine that satisfies the interface of `whisper.h` but whose `full`
always reports failure (status 1), used to exercise the failure path of the
bridge. -/
def failingEngine : Engine whisper_context where
  init_from_file := whisper_init_from_file
  default_params := whisper_full_default_params
  full := fun ctx _ _ _ => (1, ctx)
  n_segments := whisper_full_n_segments
  get_segment_text := whisper_full_get_segment_text

/-! Theorems for the claims. -/

/-- C3: `free` with the zero handle is a no-op (`whisper_free` is never
invoked), and `free` with any non-zero handle recovers the context the
handle was derived from and calls `whisper_free` on it exactly once. -/
theorem free_null_noop_and_destroy_once {Ctx : Type} (ctx : Ctx) :
    WhisperModel_free (Handle.null : Handle Ctx) = [] ∧
    WhisperModel_free (Handle.ptr ctx) = [EngineCall.destroy ctx] := by
  constructor <;> rfl

/-- C4: if `whisper_init_from_file` returns null, `init` returns exactly the
zero handle (no exception: the embedding returns an ordinary value, as the
C code does); if it returns a context, `init` returns the non-zero handle
encoding exactly that context. -/
theorem init_encodes_created_context {Ctx : Type} (E : Engine Ctx)
    (modelPath language : String) (threads : Int) :
    (E.init_from_file modelPath = none →
      (WhisperModel_init E modelPath language threads).1 = Handle.null) ∧
    (∀ ctx : Ctx, E.init_from_file modelPath = some ctx →
      (WhisperModel_init E modelPath language threads).1 = Handle.ptr ctx) := by
  constructor
  · intro hnone
    simp [WhisperModel_init, hnone]
  · intro ctx hsome
    simp [WhisperModel_init, hsome]

/-- Witness for C4: at the stub engine, `whisper_init_from_file` returns the
context `⟨0⟩` and `init` returns the handle encoding it. -/
theorem init_encodes_created_context_witness :
    (WhisperModel_init stubEngine "model.bin" "en" 4).1 = Handle.ptr ⟨0⟩ :=
  (init_encodes_created_context stubEngine "model.bin" "en" 4).2 ⟨0⟩ rfl

/-- C1: for a handle obtained from a successful `init`, `fullTranscribe`
returns exactly the concatenation, in order and with no separators, of
`whisper_full_get_segment_text(ctx, i)` for `i` in
`[0, whisper_full_n_segments(ctx))`, read from the context state left by the
successful `whisper_full` call. -/
theorem transcribe_concatenates_segments {Ctx : Type} (E : Engine Ctx)
    (modelPath language : String) (threads : Int) (ctx ctx1 : Ctx)
    (samples : List Float)
    (hinit : (WhisperModel_init E modelPath language threads).1 = Handle.ptr ctx)
    (hinfer : E.full ctx { E.default_params 0 with print_progress := false }
        samples (Int.ofNat samples.length) = (0, ctx1)) :
    (WhisperModel_fullTranscribe E (Handle.ptr ctx) samples).text =
      String.join ((List.range (E.n_segments ctx1).toNat).map
        (fun i => E.get_segment_text ctx1 (Int.ofNat i))) := by
  have hinfer' : E.full ctx
      { strategy := (E.default_params 0).strategy, print_progress := false }
      samples (samples.length : Int) = (0, ctx1) := hinfer
  simp [WhisperModel_fullTranscribe, hinfer']

/-- Witness for C1: at the stub engine with three zero samples, the
transcription equals the joined segment texts. -/
theorem transcribe_concatenates_segments_witness :
    (WhisperModel_fullTranscribe stubEngine (Handle.ptr ⟨0⟩) [0.0, 0.0, 0.0]).text =
      String.join ((List.range (stubEngine.n_segments ⟨0⟩).toNat).map
        (fun i => stubEngine.get_segment_text ⟨0⟩ (Int.ofNat i))) :=
  transcribe_concatenates_segments stubEngine "model.bin" "en" 4 ⟨0⟩ ⟨0⟩
    [0.0, 0.0, 0.0] rfl rfl

/-- C2: `fullTranscribe` with the zero handle returns the empty string
without invoking any engine operation (empty call trace); and for a non-zero
handle, if `whisper_full` returns a nonzero status then `fullTranscribe`
returns the empty string. -/
theorem transcribe_empty_on_failure_or_null {Ctx : Type} (E : Engine Ctx)
    (ctx : Ctx) (samples samples2 : List Float)
    (hfail : (E.full ctx { E.default_params 0 with print_progress := false }
        samples (Int.ofNat samples.length)).1 ≠ 0) :
    ((WhisperModel_fullTranscribe E Handle.null samples2).text = "" ∧
     (WhisperModel_fullTranscribe E Handle.null samples2).trace = []) ∧
    (WhisperModel_fullTranscribe E (Handle.ptr ctx) samples).text = "" := by
  refine ⟨⟨rfl, rfl⟩, ?_⟩
  have hfail' : (E.full ctx
      { strategy := (E.default_params 0).strategy, print_progress := false }
      samples (samples.length : Int)).1 ≠ 0 := hfail
  simp [WhisperModel_fullTranscribe, hfail']

/-- Witness for C2: at an engine whose `full` always fails, both the
zero-handle path and the failed-inference path return the empty string. -/
theorem transcribe_empty_on_failure_or_null_witness :
    ((WhisperModel_fullTranscribe failingEngine Handle.null ([] : List Float)).text = "" ∧
     (WhisperModel_fullTranscribe failingEngine Handle.null ([] : List Float)).trace = []) ∧
    (WhisperModel_fullTranscribe failingEngine (Handle.ptr ⟨0⟩) ([] : List Float)).text = "" :=
  transcribe_empty_on_failure_or_null failingEngine ⟨0⟩ [] [] (by decide)

/-- C5: with the stub engine, `whisper_full_n_segments` always returns 1 and
`whisper_full_get_segment_text` always returns the one fixed placeholder
string, so `fullTranscribe` on any handle obtained from a successful `init`
returns exactly that placeholder string, for every sample array. -/
theorem stub_transcribe_fixed_placeholder (modelPath language : String)
    (threads : Int) (h : Handle whisper_context) (samples : List Float)
    (hinit : (WhisperModel_init stubEngine modelPath language threads).1 = h) :
    (∀ ctx, whisper_full_n_segments ctx = 1) ∧
    (∀ ctx i, whisper_full_get_segment_text ctx i = " [Dummy Transcription] ") ∧
    (WhisperModel_fullTranscribe stubEngine h samples).text = " [Dummy Transcription] " := by
  have hh : h = Handle.ptr ⟨0⟩ := by rw [← hinit]; rfl
  subst hh
  exact ⟨fun _ => rfl, fun _ _ => rfl, rfl⟩

/-- Witness for C5: the end-to-end stub scenario
`init("model.bin", "en", 4)` then `fullTranscribe(h, [0.0, 0.0, 0.0])`. -/
theorem stub_transcribe_fixed_placeholder_witness :
    (∀ ctx, whisper_full_n_segments ctx = 1) ∧
    (∀ ctx i, whisper_full_get_segment_text ctx i = " [Dummy Transcription] ") ∧
    (WhisperModel_fullTranscribe stubEngine (Handle.ptr ⟨0⟩)
      [0.0, 0.0, 0.0]).text = " [Dummy Transcription] " :=
  stub_transcribe_fixed_placeholder "model.bin" "en" 4 (Handle.ptr ⟨0⟩)
    [0.0, 0.0, 0.0] rfl

/-- C6: the stub's `whisper_init_from_file` returns a non-null context for
every model locator (including the empty string is covered by the
quantifier), so `init` through the bridge always returns a non-zero
handle. -/
theorem stub_create_always_succeeds (path language : String) (threads : Int) :
    (∃ ctx, whisper_init_from_file path = some ctx) ∧
    (WhisperModel_init stubEngine path language threads).1 ≠ Handle.null := by
  refine ⟨⟨⟨0⟩, rfl⟩, ?_⟩
  simp [WhisperModel_init, stubEngine, whisper_init_from_file]

/-- C7: `whisper_full_default_params s` has strategy selector `s` and
`print_progress = false` for every `s`; and `fullTranscribe` always builds
its parameters by requesting strategy 0 (greedy): its first engine call is
`default_params 0`, and (at the stub) the parameters passed to
`whisper_full` are exactly strategy 0, progress off. -/
theorem default_params_and_greedy_request {Ctx : Type} (E : Engine Ctx)
    (s : Int) (ctx : Ctx) (samples : List Float) :
    (whisper_full_default_params s).strategy = s ∧
    (whisper_full_default_params s).print_progress = false ∧
    (WhisperModel_fullTranscribe E (Handle.ptr ctx) samples).trace.head? =
      some (EngineCall.defaultParams 0) ∧
    (WhisperModel_fullTranscribe stubEngine (Handle.ptr ⟨0⟩) samples).trace[1]? =
      some (EngineCall.fullCall ⟨0⟩ { strategy := 0, print_progress := false }
        samples (Int.ofNat samples.length)) := by
  refine ⟨rfl, rfl, ?_, rfl⟩
  simp only [WhisperModel_fullTranscribe]
  split <;> rfl

/-- C8: a zero-length sample array does not fault the call path: the stub's
`whisper_full` accepts the empty buffer with `n_samples = 0` and returns
status 0, the bridge returns a string normally, and for every engine the
bridge passes exactly the empty buffer and length 0 to `full` (the segment
loop never indexes the samples). -/
theorem transcribe_zero_length_samples_safe {Ctx : Type} (E : Engine Ctx)
    (ctx : whisper_context) (c : Ctx) :
    (whisper_full ctx (whisper_full_default_params 0) [] 0).1 = 0 ∧
    (WhisperModel_fullTranscribe stubEngine (Handle.ptr ctx) []).text =
      " [Dummy Transcription] " ∧
    (WhisperModel_fullTranscribe E (Handle.ptr c) []).trace[1]? =
      some (EngineCall.fullCall c { E.default_params 0 with print_progress := false }
        [] 0) := by
  refine ⟨rfl, ?_, ?_⟩
  · cases ctx
    rfl
  · simp only [WhisperModel_fullTranscribe]
    split <;> rfl

/-- C9: with the stub engine, two successive `fullTranscribe` calls on the
same handle (obtained from a successful `init`) with the same samples and no
intervening `free` return equal strings, and the handle still refers to the
same context state after the first call. -/
theorem transcribe_twice_equal (modelPath language : String) (threads : Int)
    (h : Handle whisper_context) (samples : List Float)
    (hinit : (WhisperModel_init stubEngine modelPath language threads).1 = h) :
    (WhisperModel_fullTranscribe stubEngine
        (WhisperModel_fullTranscribe stubEngine h samples).handleAfter samples).text =
      (WhisperModel_fullTranscribe stubEngine h samples).text ∧
    (WhisperModel_fullTranscribe stubEngine h samples).handleAfter = h := by
  have hh : h = Handle.ptr ⟨0⟩ := by rw [← hinit]; rfl
  subst hh
  exact ⟨rfl, rfl⟩

/-- Witness for C9: the double-transcribe scenario at the stub engine with
three zero samples. -/
theorem transcribe_twice_equal_witness :
    (WhisperModel_fullTranscribe stubEngine
        (WhisperModel_fullTranscribe stubEngine (Handle.ptr ⟨0⟩)
          [0.0, 0.0, 0.0]).handleAfter [0.0, 0.0, 0.0]).text =
      (WhisperModel_fullTranscribe stubEngine (Handle.ptr ⟨0⟩)
        [0.0, 0.0, 0.0]).text ∧
    (WhisperModel_fullTranscribe stubEngine (Handle.ptr ⟨0⟩)
      [0.0, 0.0, 0.0]).handleAfter = Handle.ptr ⟨0⟩ :=
  transcribe_twice_equal "model.bin" "en" 4 (Handle.ptr ⟨0⟩) [0.0, 0.0, 0.0] rfl

/-- C10: `fullTranscribe` releases the caller's sample array unchanged on
every path (zero handle, failed inference, success): the samples cross into
the engine as a read-only borrow and no element is written. -/
theorem transcribe_preserves_audio {Ctx : Type} (E : Engine Ctx)
    (h : Handle Ctx) (samples : List Float) :
    (WhisperModel_fullTranscribe E h samples).audioOut = samples := by
  cases h with
  | null => rfl
  | ptr ctx =>
    simp only [WhisperModel_fullTranscribe]
    split <;> rfl
